import Mathlib

/-!
Verification of the authorization decision engine of this repository
(policy engines, condition evaluators, scope providers, strategy registry,
RBAC models and services), shallowly embedded from the Python sources under
`src/apps/api/src/core/auth` and `src/apps/api/src/extensions/auth/rbac`.

Python values are modelled by `PyVal` (no float constructor: the claims under
study only exercise integer amounts and ids; Python `bool` is a subtype of
`int`, which `PyVal.isNumeric`/`PyVal.numVal` reproduce).  Objects accessed by
`getattr` duck-typing are modelled as attribute maps (`PyObj`).  Python dicts
are insertion-ordered association lists with overwrite-on-update (`dictSet`).
-/

/-- Model of the Python values the auth subsystem manipulates. -/
inductive PyVal where
  | none
  | bool (b : Bool)
  | int (n : Int)
  | str (s : String)
  | list (xs : List PyVal)

mutual

/-- Python `==` on modelled values: `bool` compares numerically with `int`
(`True == 1`), lists compare elementwise, others structurally. -/
def PyVal.pyEq : PyVal → PyVal → Bool
  | .none, .none => true
  | .bool a, .bool b => a == b
  | .bool a, .int n => (if a then (1 : Int) else 0) == n
  | .int n, .bool b => n == (if b then (1 : Int) else 0)
  | .int a, .int b => a == b
  | .str a, .str b => a == b
  | .list a, .list b => PyVal.pyEqList a b
  | _, _ => false

/-- Elementwise Python `==` on lists. -/
def PyVal.pyEqList : List PyVal → List PyVal → Bool
  | [], [] => true
  | a :: as, b :: bs => PyVal.pyEq a b && PyVal.pyEqList as bs
  | _, _ => false

end

/-- Python truthiness. -/
def PyVal.truthy : PyVal → Bool
  | .none => false
  | .bool b => b
  | .int n => n != 0
  | .str s => s != ""
  | .list xs => !xs.isEmpty

/-- Python `is None`. -/
def PyVal.isNone : PyVal → Bool
  | .none => true
  | _ => false

/-- Python `isinstance(v, (int, float))`; `bool` is a subclass of `int`,
so `True`/`False` satisfy this check. -/
def PyVal.isNumeric : PyVal → Bool
  | .int _ => true
  | .bool _ => true
  | _ => false

/-- Numeric value used by Python comparisons (`True` counts as 1, `False` 0).
Zero for non-numeric values, which the claims never compare. -/
def PyVal.numVal : PyVal → Int
  | .int n => n
  | .bool b => if b then 1 else 0
  | _ => 0

/-- Python `str(v)` / f-string interpolation (list rendering elided: no claim
interpolates a list). -/
def PyVal.pyStr : PyVal → String
  | .none => "None"
  | .bool b => if b then "True" else "False"
  | .int n => toString n
  | .str s => s
  | .list _ => "[...]"

/-- Iterating a Python value (`set.update(v)`, `for x in v`); iterating a
string yields its characters. -/
def PyVal.pyIter : PyVal → List PyVal
  | .list xs => xs
  | .str s => s.toList.map (fun ch => .str (String.singleton ch))
  | _ => []

/-- Python `x in container` (list membership via `==`, substring test on
strings; other containers do not occur in the modelled code). -/
def PyVal.pyIn (x : PyVal) (container : PyVal) : Bool :=
  match container with
  | .list xs => xs.any (fun y => y.pyEq x)
  | .str s =>
      match x with
      | .str t => t == "" || (s.splitOn t).length > 1
      | _ => false
  | _ => false

/-- Python `dict.get(key)`: first (only) binding of the key, if any. -/
def dictGet {α : Type} : List (String × α) → String → Option α
  | [], _ => Option.none
  | (k, v) :: rest, key => if k == key then some v else dictGet rest key

/-- Python `dict[key] = v`: overwrite in place, else append (insertion order). -/
def dictSet {α : Type} : List (String × α) → String → α → List (String × α)
  | [], key, v => [(key, v)]
  | (k, w) :: rest, key, v =>
      if k == key then (k, v) :: rest else (k, w) :: dictSet rest key v

/-- Python `dict.keys()`. -/
def dictKeys {α : Type} (m : List (String × α)) : List String :=
  m.map (fun p => p.1)

/-- Python `key in dict`. -/
def dictContains {α : Type} (m : List (String × α)) (key : String) : Bool :=
  (dictGet m key).isSome

/-- A duck-typed Python object: a finite attribute map. -/
structure PyObj where
  attrs : List (String × PyVal) := []

/-- Python `getattr(o, name, default)`. An attribute explicitly set to `None`
and a missing attribute are distinguishable only through the default. -/
def PyObj.getattr (o : PyObj) (name : String) (dflt : PyVal := PyVal.none) : PyVal :=
  (dictGet o.attrs name).getD dflt

/-- The `context` dict passed through authorization calls.  The source keeps
plain entries (such as `"amount"`) and the `"conditions"` sub-dict in one
Python dict; the two parts are split here. -/
structure AuthContext where
  entries : List (String × PyVal) := []
  conditions : List (String × PyVal) := []

/-- Python `context.get(key)` over the plain entries. -/
def AuthContext.get (ctx : AuthContext) (key : String) : PyVal :=
  (dictGet ctx.entries key).getD PyVal.none

/-- Python `x or d` for an optional reason string (`None` and `""` are falsy). -/
def strOr (r : Option String) (d : String) : String :=
  match r with
  | some s => if s == "" then d else s
  | Option.none => d

/-!
## Decision model and simple policy engine

Embedded from `src/apps/api/src/core/auth/interfaces.py` and
`src/apps/api/src/core/auth/policy/simple.py`.
-/

/-- `PolicyDecision` dataclass (interfaces.py). -/
structure PolicyDecision where
  allowed : Bool
  reason : Option String := Option.none
  metadata : List (String × PyVal) := []

/-- `PolicyDecision.allow` factory. -/
def PolicyDecision.allow (reason : Option String := Option.none) : PolicyDecision :=
  { allowed := true, reason := reason }

/-- `PolicyDecision.deny` factory (default reason as in the source). -/
def PolicyDecision.deny (reason : String := "Permission denied") : PolicyDecision :=
  { allowed := false, reason := some reason }

/-- Configuration of `SimplePolicyEngine` (policy/simple.py), with the
constructor defaults. -/
structure SimplePolicyEngine where
  admin_field : String := "is_admin"
  owner_field : String := "created_by_id"
  permissions_field : String := "permissions"

/-- `SimplePolicyEngine.evaluate` (policy/simple.py:47-93). -/
def SimplePolicyEngine.evaluate (e : SimplePolicyEngine) (actor : PyObj)
    (action : String) (resource : Option PyObj) (context : AuthContext) :
    PolicyDecision :=
  let _ := context
  let is_admin := actor.getattr e.admin_field (PyVal.bool false)
  if is_admin.truthy then
    PolicyDecision.allow (some "Admin access")
  else
    let user_permissions :=
      let v := actor.getattr e.permissions_field PyVal.none
      if v.truthy then v else PyVal.list []
    if (PyVal.str action).pyIn user_permissions || (PyVal.str "*").pyIn user_permissions then
      PolicyDecision.allow (some "Has permission")
    else if action.contains ':' &&
        (PyVal.str ((action.splitOn ":").headD "" ++ ":*")).pyIn user_permissions then
      PolicyDecision.allow (some "Has wildcard permission")
    else
      let owner_allow :=
        match resource with
        | some r =>
            let owner_id := r.getattr e.owner_field PyVal.none
            let actor_id := actor.getattr "id" PyVal.none
            !owner_id.isNone && !actor_id.isNone && owner_id.pyEq actor_id &&
              (action.endsWith ":read" || action.endsWith ":update" ||
                action == "read" || action == "update")
        | Option.none => false
      if owner_allow then
        PolicyDecision.allow (some "Resource owner")
      else if action.endsWith ":read" || action == "read" then
        PolicyDecision.allow (some "Read allowed")
      else
        PolicyDecision.deny "Permission denied. Admin access or specific permission required."

/-- `SimplePolicyEngine.get_permissions` (policy/simple.py:95-125).
The Python `set` is modelled as a list; membership is up to `pyEq`. -/
def SimplePolicyEngine.get_permissions (e : SimplePolicyEngine) (actor : PyObj)
    (resource : Option PyObj) : List PyVal :=
  let is_admin := actor.getattr e.admin_field (PyVal.bool false)
  if is_admin.truthy then [PyVal.str "*"]
  else
    let user_permissions :=
      let v := actor.getattr e.permissions_field PyVal.none
      if v.truthy then v else PyVal.list []
    let base := user_permissions.pyIter
    let withOwner :=
      match resource with
      | some r =>
          let owner_id := r.getattr e.owner_field PyVal.none
          let actor_id := actor.getattr "id" PyVal.none
          if !owner_id.isNone && !actor_id.isNone && owner_id.pyEq actor_id then
            let resource_type := (r.getattr "__tablename__" (PyVal.str "resource")).pyStr
            base ++ [PyVal.str (resource_type ++ ":read"), PyVal.str (resource_type ++ ":update")]
          else base
      | Option.none => base
    withOwner ++ [PyVal.str "read"]

/-- Default `PolicyEngine.has_permission` (interfaces.py:110-118), generic in
the engine through its `get_permissions`: checks exact membership and the
bare `"*"` wildcard, nothing else. -/
def PolicyEngine.has_permission (get_permissions : PyObj → Option PyObj → List PyVal)
    (actor : PyObj) (permission : String) (resource : Option PyObj) : Bool :=
  let permissions := get_permissions actor resource
  permissions.any (fun v => v.pyEq (PyVal.str permission)) ||
    permissions.any (fun v => v.pyEq (PyVal.str "*"))

/-!
## Built-in condition evaluators

Embedded from `src/apps/api/src/core/auth/conditions/builtin.py`.
Each evaluator returns `(passed, optional reason)`.
-/

/-- Configuration of `MaxAmountCondition`. -/
structure MaxAmountCondition where
  context_field : String := "amount"
  actor_limit_field : String := "approval_limit"

/-- `MaxAmountCondition.evaluate` (builtin.py:45-70).  Note that Python
`isinstance(expected, (int, float))` is satisfied by `True`, whose numeric
value is 1, so the static-threshold branch fires for `expected = True`. -/
def MaxAmountCondition.evaluate (c : MaxAmountCondition) (expected : PyVal)
    (actor : PyObj) (resource : Option PyObj) (context : AuthContext) :
    Bool × Option String :=
  let amount0 := context.get c.context_field
  let amount :=
    match resource with
    | some r => if amount0.isNone then r.getattr c.context_field PyVal.none else amount0
    | Option.none => amount0
  if amount.isNone then (true, Option.none)
  else if expected.isNumeric && amount.numVal > expected.numVal then
    (false, some ("Amount " ++ amount.pyStr ++ " exceeds limit " ++ expected.pyStr))
  else
    match expected with
    | PyVal.bool true =>
        let actor_limit := actor.getattr c.actor_limit_field PyVal.none
        if !actor_limit.isNone && amount.numVal > actor_limit.numVal then
          (false, some ("Amount " ++ amount.pyStr ++ " exceeds your approval limit " ++
            actor_limit.pyStr))
        else (true, Option.none)
    | _ => (true, Option.none)

/-- Configuration of `NotCreatorCondition`. -/
structure NotCreatorCondition where
  creator_field : String := "created_by_id"

/-- `NotCreatorCondition.evaluate` (builtin.py:94-113). -/
def NotCreatorCondition.evaluate (c : NotCreatorCondition) (expected : PyVal)
    (actor : PyObj) (resource : Option PyObj) (context : AuthContext) :
    Bool × Option String :=
  let _ := context
  if !expected.truthy then (true, Option.none)
  else
    match resource with
    | Option.none => (true, Option.none)
    | some r =>
        let creator_id := r.getattr c.creator_field PyVal.none
        let actor_id := actor.getattr "id" PyVal.none
        if !creator_id.isNone && !actor_id.isNone && creator_id.pyEq actor_id then
          (false, some "Cannot perform this action on your own resource (segregation of duties)")
        else (true, Option.none)

/-- Configuration of `StatusCondition`. -/
structure StatusCondition where
  status_field : String := "status"

/-- `StatusCondition.evaluate` (builtin.py:138-157).  A missing status
attribute yields `None`, which is then compared against `expected`. -/
def StatusCondition.evaluate (c : StatusCondition) (expected : PyVal)
    (actor : PyObj) (resource : Option PyObj) (context : AuthContext) :
    Bool × Option String :=
  let _ := actor
  let _ := context
  match resource with
  | Option.none => (true, Option.none)
  | some r =>
      let current_status := r.getattr c.status_field PyVal.none
      match expected with
      | PyVal.list xs =>
          if !(xs.any (fun v => v.pyEq current_status)) then
            (false, some ("Resource status must be one of " ++ expected.pyStr ++
              ", got " ++ current_status.pyStr))
          else (true, Option.none)
      | e =>
          if !(current_status.pyEq e) then
            (false, some ("Resource status must be " ++ e.pyStr ++ ", got " ++
              current_status.pyStr))
          else (true, Option.none)

/-- Configuration of `SameTenantCondition`. -/
structure SameTenantCondition where
  tenant_field : String := "organization_id"

/-- `SameTenantCondition.evaluate` (builtin.py:181-203). -/
def SameTenantCondition.evaluate (c : SameTenantCondition) (expected : PyVal)
    (actor : PyObj) (resource : Option PyObj) (context : AuthContext) :
    Bool × Option String :=
  let _ := context
  if !expected.truthy then (true, Option.none)
  else
    match resource with
    | Option.none => (true, Option.none)
    | some r =>
        let actor_tenant := actor.getattr c.tenant_field PyVal.none
        let resource_tenant := r.getattr c.tenant_field PyVal.none
        if actor_tenant.isNone || resource_tenant.isNone then (true, Option.none)
        else if !(actor_tenant.pyEq resource_tenant) then
          (false, some "Cannot access resources from another organization")
        else (true, Option.none)

/-- A registered condition evaluator: `evaluate(expected, actor, resource, context)`. -/
def CondEval : Type :=
  PyVal → PyObj → Option PyObj → AuthContext → Bool × Option String

/-- A name-keyed condition registry (`AuthRegistry._condition_evaluators`,
with evaluators already instantiated). -/
def CondRegistry : Type := List (String × CondEval)

/-- The registry populated by the module-level decorators in builtin.py,
with every evaluator carrying its default configuration. -/
def builtinConditionRegistry : CondRegistry :=
  [("max_amount", MaxAmountCondition.evaluate {}),
   ("not_creator", NotCreatorCondition.evaluate {}),
   ("status", StatusCondition.evaluate {}),
   ("same_tenant", SameTenantCondition.evaluate {})]

/-!
## Authorization service facade

Embedded from `src/apps/api/src/core/auth/service.py` (`authorize`,
lines 52-92).  The policy engine is passed as a pure evaluation function;
`actor or self.actor` fallback and the retrieval of the `"conditions"` key
from the context dict are reflected in the explicit `actor` argument and in
`AuthContext.conditions`.
-/

/-- A policy engine evaluation function, `evaluate(actor, action, resource, context)`. -/
def PolicyEval : Type :=
  PyObj → String → Option PyObj → AuthContext → PolicyDecision

/-- The condition loop inside `AuthorizationService.authorize`
(service.py:81-91): unknown condition names are skipped, the first failing
condition short-circuits into a deny carrying its reason (or a default). -/
def evalConditions (registry : CondRegistry) (actor : PyObj)
    (resource : Option PyObj) (ctx : AuthContext) (decision : PolicyDecision) :
    List (String × PyVal) → PolicyDecision
  | [] => decision
  | (condition_type, expected) :: rest =>
      match dictGet registry condition_type with
      | Option.none => evalConditions registry actor resource ctx decision rest
      | some evaluator =>
          let pr := evaluator expected actor resource ctx
          if pr.1 then evalConditions registry actor resource ctx decision rest
          else PolicyDecision.deny (strOr pr.2 ("Condition " ++ condition_type ++ " not met"))

/-- `AuthorizationService.authorize` (service.py:52-92). -/
def AuthorizationService.authorize (policy_eval : PolicyEval) (registry : CondRegistry)
    (actor : PyObj) (action : String) (resource : Option PyObj) (ctx : AuthContext) :
    PolicyDecision :=
  let decision := policy_eval actor action resource ctx
  if !decision.allowed then decision
  else evalConditions registry actor resource ctx decision ctx.conditions

/-- Specification-side predicate: every condition named in the map that is
present in the registry passes (AND semantics, from the spec wording). -/
def conditionsPass (registry : CondRegistry) (conds : List (String × PyVal))
    (actor : PyObj) (resource : Option PyObj) (ctx : AuthContext) : Bool :=
  conds.all (fun ce =>
    match dictGet registry ce.1 with
    | Option.none => true
    | some evaluator => (evaluator ce.2 actor resource ctx).1)

/-- Specification-side search for the first registered failing condition,
returning its name and reason. -/
def firstFailingCondition (registry : CondRegistry) (actor : PyObj)
    (resource : Option PyObj) (ctx : AuthContext) :
    List (String × PyVal) → Option (String × Option String)
  | [] => Option.none
  | (condition_type, expected) :: rest =>
      match dictGet registry condition_type with
      | Option.none => firstFailingCondition registry actor resource ctx rest
      | some evaluator =>
          let pr := evaluator expected actor resource ctx
          if pr.1 then firstFailingCondition registry actor resource ctx rest
          else some (condition_type, pr.2)

/-- Refinement reference for `authorize`, following the spec wording of
section 4.4: delegate to the engine; on a deny return it unchanged; otherwise
return the deny of the first registered failing condition, else the original
allow. -/
def authorizeSpec (policy_eval : PolicyEval) (registry : CondRegistry)
    (actor : PyObj) (action : String) (resource : Option PyObj) (ctx : AuthContext) :
    PolicyDecision :=
  let decision := policy_eval actor action resource ctx
  if !decision.allowed then decision
  else
    match firstFailingCondition registry actor resource ctx ctx.conditions with
    | Option.none => decision
    | some (condition_type, reason) =>
        PolicyDecision.deny (strOr reason ("Condition " ++ condition_type ++ " not met"))

/-!
## Data scope and scope providers

Embedded from `src/apps/api/src/core/auth/interfaces.py` (`DataScope`) and
`src/apps/api/src/core/auth/scope/none.py`.  A SQLAlchemy `Select` is
modelled as the ordered list of WHERE clauses added to it; a model class is
modelled as the list of its attribute names (`hasattr`).
-/

/-- `DataScope` dataclass. -/
structure DataScope where
  level : String
  filters : List (String × PyVal) := []

/-- `DataScope.global_access` factory. -/
def DataScope.global_access : DataScope :=
  { level := "global", filters := [] }

/-- `DataScope.tenant` factory. -/
def DataScope.tenant (tenant_id : PyVal) (field_name : String := "organization_id") :
    DataScope :=
  { level := "tenant", filters := [(field_name, tenant_id)] }

/-- `DataScope.ownership` factory. -/
def DataScope.ownership (owner_id : PyVal) (field_name : String := "created_by_id") :
    DataScope :=
  { level := "ownership", filters := [(field_name, owner_id)] }

/-- A WHERE predicate added by `apply_to_query`: `column == value` or
`column.in_(value)`. -/
inductive WhereClause where
  | eq (field : String) (value : PyVal)
  | mem (field : String) (value : PyVal)

/-- A query: the WHERE clauses accumulated on the SQLAlchemy `Select`. -/
structure Query where
  wheres : List WhereClause := []

/-- `query.where(clause)`. -/
def Query.addWhere (q : Query) (c : WhereClause) : Query :=
  { wheres := q.wheres ++ [c] }

/-- The generic filter loop shared by both providers (scope/none.py:88-94 and
165-171): for each filter field present on the model, AND an equality (or
membership, for collection values) predicate. -/
def applyFiltersGeneric (q : Query) (filters : List (String × PyVal))
    (model : List String) : Query :=
  filters.foldl (fun q f =>
    if model.contains f.1 then
      match f.2 with
      | PyVal.list _ => q.addWhere (WhereClause.mem f.1 f.2)
      | _ => q.addWhere (WhereClause.eq f.1 f.2)
    else q) q

/-- Configuration of `NoScopeProvider`, with the constructor defaults. -/
structure NoScopeProvider where
  multi_tenant : Bool := false
  tenant_field : String := "organization_id"
  tenant_actor_field : String := "organization_id"

/-- `NoScopeProvider.get_scope` (scope/none.py:46-62). -/
def NoScopeProvider.get_scope (p : NoScopeProvider) (actor : PyObj)
    (resource_type : Option String := Option.none) (action : Option String := Option.none) :
    DataScope :=
  let _ := resource_type
  let _ := action
  if p.multi_tenant then
    let tenant_id := actor.getattr p.tenant_actor_field PyVal.none
    if tenant_id.truthy then DataScope.tenant tenant_id p.tenant_field
    else DataScope.global_access
  else DataScope.global_access

/-- `NoScopeProvider.apply_to_query` (scope/none.py:64-96): global scopes
pass through; a truthy tenant filter on a model exposing the tenant field
adds exactly that equality and returns; anything else falls through to the
generic loop. -/
def NoScopeProvider.apply_to_query (p : NoScopeProvider) (query : Query)
    (scope : DataScope) (model : List String) : Query :=
  if scope.level == "global" then query
  else
    let tenant_id := (dictGet scope.filters p.tenant_field).getD PyVal.none
    if scope.level == "tenant" && tenant_id.truthy && model.contains p.tenant_field then
      query.addWhere (WhereClause.eq p.tenant_field tenant_id)
    else applyFiltersGeneric query scope.filters model

/-- Configuration of `OwnershipScopeProvider`, with the constructor defaults. -/
structure OwnershipScopeProvider where
  owner_field : String := "created_by_id"
  admin_field : String := "is_admin"
  multi_tenant : Bool := false
  tenant_field : String := "organization_id"

/-- `OwnershipScopeProvider.get_scope` (scope/none.py:127-153). -/
def OwnershipScopeProvider.get_scope (p : OwnershipScopeProvider) (actor : PyObj)
    (resource_type : Option String := Option.none) (action : Option String := Option.none) :
    DataScope :=
  let _ := resource_type
  let _ := action
  let is_admin := actor.getattr p.admin_field (PyVal.bool false)
  if is_admin.truthy then
    if p.multi_tenant then
      let tenant_id := actor.getattr p.tenant_field PyVal.none
      if tenant_id.truthy then DataScope.tenant tenant_id p.tenant_field
      else DataScope.global_access
    else DataScope.global_access
  else
    let actor_id := actor.getattr "id" PyVal.none
    let filters := dictSet [] p.owner_field actor_id
    let filters :=
      if p.multi_tenant then
        let tenant_id := actor.getattr p.tenant_field PyVal.none
        if tenant_id.truthy then dictSet filters p.tenant_field tenant_id else filters
      else filters
    { level := "ownership", filters := filters }

/-- `OwnershipScopeProvider.apply_to_query` (scope/none.py:155-173). -/
def OwnershipScopeProvider.apply_to_query (p : OwnershipScopeProvider) (query : Query)
    (scope : DataScope) (model : List String) : Query :=
  let _ := p
  if scope.level == "global" then query
  else applyFiltersGeneric query scope.filters model

/-!
## Strategy registry

Embedded from `src/apps/api/src/core/auth/registry.py`.  The three
name-keyed class maps share identical registration and lookup logic, which
is modelled once, generically in the class type; `get_*` instantiates the
class, modelled by wrapping it in `StrategyInstance`.  The Python error
message renders the available names with `list(...)` repr; here they are
joined with a comma, and the raw name list is carried alongside.
-/

/-- An instance produced by `engine_class(**kwargs)`: tagged with its class. -/
structure StrategyInstance (α : Type) where
  cls : α

/-- The `ValueError` raised for an unknown strategy name. -/
structure ConfigError where
  message : String
  available : List String

/-- A registration decorator body (`cls._policy_engines[name] = engine_class`
and its two siblings). -/
def AuthRegistry.register_strategy {α : Type} (m : List (String × α))
    (name : String) (cls : α) : List (String × α) :=
  dictSet m name cls

/-- The shared body of `get_policy_engine` / `get_scope_provider` /
`get_condition_evaluator` (registry.py:86-147). -/
def AuthRegistry.get_strategy {α : Type} (kind : String) (m : List (String × α))
    (name : String) : Except ConfigError (StrategyInstance α) :=
  match dictGet m name with
  | some cls => Except.ok { cls := cls }
  | Option.none =>
      Except.error
        { message := "Unknown " ++ kind ++ ": " ++ name ++ ". Available: " ++
            String.intercalate ", " (dictKeys m),
          available := dictKeys m }

/-- `AuthRegistry.get_policy_engine` (registry.py:86-105). -/
def AuthRegistry.get_policy_engine {α : Type} (m : List (String × α)) (name : String) :
    Except ConfigError (StrategyInstance α) :=
  AuthRegistry.get_strategy "policy engine" m name

/-- `AuthRegistry.get_scope_provider` (registry.py:107-126). -/
def AuthRegistry.get_scope_provider {α : Type} (m : List (String × α)) (name : String) :
    Except ConfigError (StrategyInstance α) :=
  AuthRegistry.get_strategy "scope provider" m name

/-- `AuthRegistry.get_condition_evaluator` (registry.py:128-147). -/
def AuthRegistry.get_condition_evaluator {α : Type} (m : List (String × α)) (name : String) :
    Except ConfigError (StrategyInstance α) :=
  AuthRegistry.get_strategy "condition type" m name

/-!
## RBAC models, engine and service

Embedded from `src/apps/api/src/extensions/auth/rbac/models.py`,
`engine.py` and `service.py`.  Timestamps are integers (`datetime.utcnow()`
readings); within one call the several `utcnow()` readings of the source are
modelled by a single `now` argument.  Role and user ids are `Nat` and
`PyVal` respectively (user ids flow through `getattr` duck-typing and
f-string cache keys).  The database session is a snapshot `RBACDb`; the
engine's mutable permission cache is threaded explicitly.
-/

/-- `Permission` row (models.py:87-132): a (resource, action) pair. -/
structure RBACPermission where
  resource : String
  action : String

/-- `Permission.permission_string` (models.py:126-129). -/
def RBACPermission.permission_string (p : RBACPermission) : String :=
  p.resource ++ ":" ++ p.action

/-- `Role` row with its attached permissions (models.py:40-84). -/
structure Role where
  id : Nat
  permissions : List RBACPermission := []

/-- `UserRole` assignment row (models.py:135-218). -/
structure UserRole where
  user_id : PyVal
  role_id : Nat
  scope_type : Option String := Option.none
  scope_id : PyVal := PyVal.none
  valid_from : Int
  valid_until : Option Int := Option.none

/-- `UserRole.is_valid` (models.py:206-214).  Note the source tests
`valid_until < now` for invalidity, so an assignment whose `valid_until`
equals `now` still counts as valid here (a non-`None` datetime is always
truthy). -/
def UserRole.is_valid (ur : UserRole) (now : Int) : Bool :=
  if ur.valid_from > now then false
  else
    match ur.valid_until with
    | some vu => if vu < now then false else true
    | Option.none => true

/-- The snapshot of the assignment and role tables the engine queries. -/
structure RBACDb where
  user_roles : List UserRole := []
  roles : List Role := []

/-- The WHERE predicate of the assignment query in
`RBACPolicyEngine._get_user_permissions` (engine.py:148-155):
`user_id == uid AND valid_from <= now AND (valid_until IS NULL OR valid_until > now)`. -/
def engineValidFilter (ur : UserRole) (uid : PyVal) (now : Int) : Bool :=
  ur.user_id.pyEq uid && decide (ur.valid_from ≤ now) &&
    (match ur.valid_until with
     | Option.none => true
     | some vu => decide (vu > now))

/-- The scope check of engine.py:162-166: a truthy `scope_type` together
with a supplied resource filters on `getattr(resource, scope_type + "_id")
== scope_id`; otherwise the assignment contributes unconditionally. -/
def scopeApplies (ur : UserRole) (resource : Option PyObj) : Bool :=
  match ur.scope_type, resource with
  | some st, some r =>
      if st == "" then true
      else (r.getattr (st ++ "_id") PyVal.none).pyEq ur.scope_id
  | _, _ => true

/-- The role ids collected by `_get_user_permissions` (engine.py:159-168):
valid assignments surviving the scope check. -/
def validRoleIds (db : RBACDb) (now : Int) (uid : PyVal) (resource : Option PyObj) :
    List Nat :=
  ((db.user_roles.filter (fun ur => engineValidFilter ur uid now)).filter
    (fun ur => scopeApplies ur resource)).map (fun ur => ur.role_id)

/-- The permission strings of the roles found for the collected ids
(engine.py:173-184).  Set-ness of the Python `set` is irrelevant to
membership, which is all the claims use. -/
def collectRolePermissions (db : RBACDb) (role_ids : List Nat) : List String :=
  (db.roles.filter (fun r => role_ids.contains r.id)).foldl
    (fun acc r => acc ++ r.permissions.map RBACPermission.permission_string) []

/-- `RBACPolicyEngine` configuration and cache state (engine.py:46-54).
The cache maps the f-string of the user id to the computed permission set
and its computation time. -/
structure RBACPolicyEngine where
  admin_field : String := "is_admin"
  cache_ttl : Int := 300
  cache : List (String × (List String × Int)) := []

/-- `RBACPolicyEngine._get_user_permissions` (engine.py:123-189): a fresh
enough cache entry for the actor id is returned as is, regardless of the
resource; otherwise the scope-filtered permission set is recomputed and,
unless no role survived, stored under the actor id key. -/
def RBACPolicyEngine.get_user_permissions_impl (e : RBACPolicyEngine) (db : RBACDb)
    (now : Int) (user_id : PyVal) (resource : Option PyObj) :
    List String × RBACPolicyEngine :=
  let cache_key := user_id.pyStr
  let recompute : List String × RBACPolicyEngine :=
    let role_ids := validRoleIds db now user_id resource
    if role_ids.isEmpty then ([], e)
    else
      let permissions := collectRolePermissions db role_ids
      (permissions, { e with cache := dictSet e.cache cache_key (permissions, now) })
  match dictGet e.cache cache_key with
  | some (permissions, cached_at) =>
      if now - cached_at < e.cache_ttl then (permissions, e) else recompute
  | Option.none => recompute

/-- `RBACPolicyEngine.evaluate` (engine.py:56-105). -/
def RBACPolicyEngine.evaluate (e : RBACPolicyEngine) (db : RBACDb) (now : Int)
    (actor : PyObj) (action : String) (resource : Option PyObj) :
    PolicyDecision × RBACPolicyEngine :=
  let is_admin := actor.getattr e.admin_field (PyVal.bool false)
  if is_admin.truthy then
    (PolicyDecision.allow (some "Admin access"), e)
  else
    let resource_type : Option String :=
      if action.contains ':' then some ((action.splitOn ":").headD "") else Option.none
    let user_id := actor.getattr "id" PyVal.none
    if !user_id.truthy then (PolicyDecision.deny "User ID not found", e)
    else
      let pr := e.get_user_permissions_impl db now user_id resource
      let permissions := pr.1
      if permissions.contains action then
        (PolicyDecision.allow (some ("Has permission: " ++ action)), pr.2)
      else if permissions.contains "*" then
        (PolicyDecision.allow (some "Has wildcard permission"), pr.2)
      else
        match resource_type with
        | some rt =>
            if rt != "" && permissions.contains (rt ++ ":*") then
              (PolicyDecision.allow (some ("Has wildcard permission: " ++ rt ++ ":*")), pr.2)
            else (PolicyDecision.deny ("Missing permission: " ++ action), pr.2)
        | Option.none => (PolicyDecision.deny ("Missing permission: " ++ action), pr.2)

/-- `RBACService.get_user_roles` (service.py:278-294). -/
def RBACService.get_user_roles (db : RBACDb) (user_id : PyVal) (now : Int)
    (include_expired : Bool := false) : List UserRole :=
  db.user_roles.filter (fun ur =>
    ur.user_id.pyEq user_id &&
      (include_expired ||
        (decide (ur.valid_from ≤ now) &&
          (match ur.valid_until with
           | Option.none => true
           | some vu => decide (vu > now)))))

/-- `RBACService.get_user_permissions` (service.py:296-307): union over the
currently valid assignments of the assigned role's permission strings. -/
def RBACService.get_user_permissions (db : RBACDb) (user_id : PyVal) (now : Int) :
    List String :=
  (RBACService.get_user_roles db user_id now false).foldl
    (fun acc ur =>
      match db.roles.find? (fun r => r.id == ur.role_id) with
      | some role => acc ++ role.permissions.map RBACPermission.permission_string
      | Option.none => acc) []

/-- Specification-side validity of an assignment, following the spec wording:
`valid_from <= now` and (`valid_until` is null or `valid_until > now`). -/
def assignmentValidSpec (ur : UserRole) (now : Int) : Bool :=
  decide (ur.valid_from ≤ now) &&
    (match ur.valid_until with
     | Option.none => true
     | some vu => decide (vu > now))

/-!
## Concrete fixtures used by counterexamples and witnesses
-/

/-- An actor with the admin flag set. -/
def adminActorFx : PyObj := { attrs := [("is_admin", PyVal.bool true)] }

/-- A plain non-admin actor. -/
def plainActorFx : PyObj := { attrs := [("id", PyVal.int 2)] }

/-- A resource whose status is `"approved"`. -/
def resApprovedFx : PyObj := { attrs := [("status", PyVal.str "approved")] }

/-- A context requiring the `status` condition to equal `"pending"`. -/
def ctxStatusPendingFx : AuthContext := { conditions := [("status", PyVal.str "pending")] }

/-- An actor holding only the action wildcard permission `"posts:*"`. -/
def actorWildcardFx : PyObj :=
  { attrs := [("id", PyVal.int 3), ("permissions", PyVal.list [PyVal.str "posts:*"])] }

/-- An actor with an approval limit of 1000. -/
def actorLimitFx : PyObj :=
  { attrs := [("id", PyVal.int 9), ("approval_limit", PyVal.int 1000)] }

/-- A context carrying `amount = 500`. -/
def ctxAmount500Fx : AuthContext := { entries := [("amount", PyVal.int 500)] }

/-- A project-scoped assignment (scope id 10) of role 7 to user 1. -/
def scopedAssignmentFx : UserRole :=
  { user_id := PyVal.int 1, role_id := 7, scope_type := some "project",
    scope_id := PyVal.int 10, valid_from := 0 }

/-- The role granted by `scopedAssignmentFx`: permission `docs:read`. -/
def docsRoleFx : Role :=
  { id := 7, permissions := [{ resource := "docs", action := "read" }] }

/-- The snapshot holding `scopedAssignmentFx` and `docsRoleFx`. -/
def rbacDbFx : RBACDb :=
  { user_roles := [scopedAssignmentFx], roles := [docsRoleFx] }

/-- A resource in project 10 (matching the scoped assignment). -/
def resProjectAFx : PyObj := { attrs := [("project_id", PyVal.int 10)] }

/-- A resource in project 20 (not matching the scoped assignment). -/
def resProjectBFx : PyObj := { attrs := [("project_id", PyVal.int 20)] }

/-- An assignment expiring exactly at time 5. -/
def urBoundaryFx : UserRole :=
  { user_id := PyVal.int 1, role_id := 1, valid_from := 0, valid_until := some 5 }

/-- A resource with no attributes at all (no status, no tenant, no creator). -/
def emptyResourceFx : PyObj := {}

/-!
## Helper lemmas (shared; not tied to any single claim)
-/

theorem dictGet_dictSet_self {α : Type} (m : List (String × α)) (k : String) (v : α) :
    dictGet (dictSet m k v) k = some v := by
  induction m with
  | nil => simp [dictSet, dictGet]
  | cons head tail ih =>
      obtain ⟨k', v'⟩ := head
      by_cases h : (k' == k)
      · simp [dictSet, dictGet, h]
      · simp only [dictSet, dictGet, h, if_neg, Bool.false_eq_true, not_false_iff]
        simpa [h] using ih

theorem dictGet_dictSet_ne {α : Type} (m : List (String × α)) (k k' : String) (v : α)
    (h : k' ≠ k) : dictGet (dictSet m k v) k' = dictGet m k' := by
  induction m with
  | nil =>
      have hb : (k == k') = false := by
        simpa using fun he => h he.symm
      simp [dictSet, dictGet, hb]
  | cons head tail ih =>
      obtain ⟨k0, v0⟩ := head
      by_cases h0 : (k0 == k)
      · have hk0 : k0 = k := by simpa using h0
        have hb : (k0 == k') = false := by
          subst hk0
          simpa using fun he => h he.symm
        simp [dictSet, dictGet, h0, hb]
      · simp only [dictSet, h0, Bool.false_eq_true, if_neg, not_false_iff]
        by_cases h1 : (k0 == k')
        · simp [dictGet, h1]
        · simp [dictGet, h1, ih]

theorem dictGet_mem {α : Type} (m : List (String × α)) (k : String) (v : α)
    (h : dictGet m k = some v) : (k, v) ∈ m := by
  induction m with
  | nil => simp [dictGet] at h
  | cons head tail ih =>
      obtain ⟨k0, v0⟩ := head
      by_cases h0 : (k0 == k)
      · have hk0 : k0 = k := by simpa using h0
        simp [dictGet, h0] at h
        subst hk0 h
        exact List.mem_cons_self _ _
      · simp [dictGet, h0] at h
        exact List.mem_cons_of_mem _ (ih h)

theorem dictKeys_dictSet_contains {α : Type} (m : List (String × α)) (k : String) (v : α) :
    (dictKeys (dictSet m k v)).contains k = true := by
  have h1 : (k, v) ∈ dictSet m k v :=
    dictGet_mem _ _ _ (dictGet_dictSet_self m k v)
  have h2 : k ∈ dictKeys (dictSet m k v) := by
    simpa [dictKeys] using List.mem_map_of_mem Prod.fst h1
  simpa using h2

theorem evalConditions_eq_firstFailing (registry : CondRegistry) (actor : PyObj)
    (resource : Option PyObj) (ctx : AuthContext) (d : PolicyDecision)
    (conds : List (String × PyVal)) :
    evalConditions registry actor resource ctx d conds =
      (match firstFailingCondition registry actor resource ctx conds with
       | Option.none => d
       | some (condition_type, reason) =>
           PolicyDecision.deny (strOr reason ("Condition " ++ condition_type ++ " not met"))) := by
  induction conds with
  | nil => rfl
  | cons head tail ih =>
      obtain ⟨condition_type, expected⟩ := head
      simp only [evalConditions, firstFailingCondition]
      cases hreg : dictGet registry condition_type with
      | none => exact ih
      | some evaluator =>
          by_cases hp : (evaluator expected actor resource ctx).1
          · simp only [hp, if_pos]
            exact ih
          · simp [hp]

theorem evalConditions_allowed (registry : CondRegistry) (actor : PyObj)
    (resource : Option PyObj) (ctx : AuthContext) (d : PolicyDecision)
    (conds : List (String × PyVal)) (hd : d.allowed = true) :
    (evalConditions registry actor resource ctx d conds).allowed =
      conditionsPass registry conds actor resource ctx := by
  induction conds with
  | nil => simpa [evalConditions, conditionsPass] using hd
  | cons head tail ih =>
      obtain ⟨condition_type, expected⟩ := head
      simp only [evalConditions, conditionsPass, List.all_cons]
      cases hreg : dictGet registry condition_type with
      | none =>
          simpa [conditionsPass] using ih
      | some evaluator =>
          by_cases hp : (evaluator expected actor resource ctx).1
          · simp only [hp, if_pos, Bool.true_and]
            simpa [conditionsPass] using ih
          · simp [hp, PolicyDecision.deny]

theorem applyFiltersGeneric_id (q : Query) (filters : List (String × PyVal))
    (model : List String) (h : ∀ f ∈ filters, model.contains f.1 = false) :
    applyFiltersGeneric q filters model = q := by
  induction filters generalizing q with
  | nil => rfl
  | cons f rest ih =>
      have hf : model.contains f.1 = false := h f (List.mem_cons_self _ _)
      have hrest : ∀ g ∈ rest, model.contains g.1 = false :=
        fun g hg => h g (List.mem_cons_of_mem _ hg)
      simp only [applyFiltersGeneric, List.foldl_cons, hf, Bool.false_eq_true,
        if_neg, not_false_iff]
      exact ih q hrest

/-!
## Claim theorems
-/

/-- C6: `AuthorizationService.authorize` allows iff the policy engine allows
and every registered condition named in the context passes; unregistered
names are skipped; the first failing condition short-circuits into a deny
carrying its reason; an engine deny is returned unchanged with no condition
evaluated; an all-pass run returns the engine's original allow decision. -/
theorem C6_authorize_condition_semantics :
    ∀ (policy_eval : PolicyEval) (registry : CondRegistry) (actor : PyObj)
      (action : String) (resource : Option PyObj) (ctx : AuthContext),
    AuthorizationService.authorize policy_eval registry actor action resource ctx =
      authorizeSpec policy_eval registry actor action resource ctx ∧
    (AuthorizationService.authorize policy_eval registry actor action resource ctx).allowed =
      ((policy_eval actor action resource ctx).allowed &&
        conditionsPass registry ctx.conditions actor resource ctx) := by
  intro policy_eval registry actor action resource ctx
  constructor
  · unfold AuthorizationService.authorize authorizeSpec
    cases hd : (policy_eval actor action resource ctx).allowed
    · simp [hd]
    · simpa [hd] using
        evalConditions_eq_firstFailing registry actor resource ctx _ ctx.conditions
  · unfold AuthorizationService.authorize
    cases hd : (policy_eval actor action resource ctx).allowed
    · simp [hd]
    · simpa [hd] using
        evalConditions_allowed registry actor resource ctx _ ctx.conditions hd

/-- C1 (counterexample): an admin actor is allowed by the engine, but
`authorize` still evaluates the conditions in the context; a failing
registered `status` condition turns the admin's decision into a deny, so
`authorize` does not return `allowed=true` for every conditions map. -/
theorem C1_counterexample :
    (AuthorizationService.authorize
        (fun a act r c => SimplePolicyEngine.evaluate {} a act r c)
        builtinConditionRegistry adminActorFx "doc:approve" (some resApprovedFx)
        ctxStatusPendingFx).allowed = false := by
  rfl

/-- C1 (amended): for every actor whose admin-flag field is truthy, both
engines' `evaluate` return `allowed=true` for every action, resource and
context; `AuthorizationService.authorize` returns `allowed=true` exactly when
additionally every registered condition named in the context passes —
conditions are not bypassed for admins. -/
theorem C1_admin_allow (e : SimplePolicyEngine) (re : RBACPolicyEngine) (db : RBACDb)
    (now : Int) (registry : CondRegistry) (actor : PyObj) (action : String)
    (resource : Option PyObj) (ctx : AuthContext)
    (hs : (actor.getattr e.admin_field (PyVal.bool false)).truthy = true)
    (hr : (actor.getattr re.admin_field (PyVal.bool false)).truthy = true) :
    (e.evaluate actor action resource ctx).allowed = true ∧
    ((re.evaluate db now actor action resource).1).allowed = true ∧
    (AuthorizationService.authorize (fun a act r c => e.evaluate a act r c) registry
        actor action resource ctx).allowed =
      conditionsPass registry ctx.conditions actor resource ctx := by
  have h1 : e.evaluate actor action resource ctx = PolicyDecision.allow (some "Admin access") := by
    unfold SimplePolicyEngine.evaluate
    simp [hs]
  refine ⟨by simp [h1, PolicyDecision.allow], ?_, ?_⟩
  · unfold RBACPolicyEngine.evaluate
    simp [hr, PolicyDecision.allow]
  · unfold AuthorizationService.authorize
    simp only [h1, PolicyDecision.allow, Bool.not_true, Bool.false_eq_true, if_neg,
      not_false_iff]
    exact evalConditions_allowed registry actor resource ctx _ ctx.conditions rfl

/-- C1 witness: the amended statement at a concrete admin actor. -/
theorem C1_admin_allow_witness :
    (SimplePolicyEngine.evaluate {} adminActorFx "doc:approve" Option.none {}).allowed = true ∧
    ((RBACPolicyEngine.evaluate {} rbacDbFx 0 adminActorFx "doc:approve" Option.none).1).allowed
        = true ∧
    (AuthorizationService.authorize (fun a act r c => SimplePolicyEngine.evaluate {} a act r c)
        builtinConditionRegistry adminActorFx "doc:approve" Option.none {}).allowed =
      conditionsPass builtinConditionRegistry ({} : AuthContext).conditions adminActorFx
        Option.none {} :=
  C1_admin_allow {} {} rbacDbFx 0 builtinConditionRegistry adminActorFx "doc:approve"
    Option.none {} (by rfl) (by rfl)

/-- C3 (counterexample): with the simple engine's `get_permissions`, an actor
holding only `"posts:*"` has a permission set containing the action-only
wildcard for `"posts:read"`, yet the default `has_permission` returns false:
the default implementation does not check the `"resource:*"` wildcard. -/
theorem C3_counterexample :
    PolicyEngine.has_permission (fun a r => SimplePolicyEngine.get_permissions {} a r)
        actorWildcardFx "posts:read" Option.none = false ∧
    (SimplePolicyEngine.get_permissions {} actorWildcardFx Option.none).any
        (fun v => v.pyEq (PyVal.str ("posts" ++ ":*"))) = true := by
  exact ⟨rfl, rfl⟩

/-- C3 (amended): the default `PolicyEngine.has_permission` returns true iff
the set returned by `get_permissions` contains the permission exactly or
contains the bare wildcard `"*"`; the action-only wildcard `"resource:*"` is
not consulted by the default implementation. -/
theorem C3_default_has_permission :
    ∀ (get_permissions : PyObj → Option PyObj → List PyVal) (actor : PyObj)
      (permission : String) (resource : Option PyObj),
    PolicyEngine.has_permission get_permissions actor permission resource = true ↔
      ((∃ v ∈ get_permissions actor resource, v.pyEq (PyVal.str permission) = true) ∨
       (∃ v ∈ get_permissions actor resource, v.pyEq (PyVal.str "*") = true)) := by
  intro get_permissions actor permission resource
  unfold PolicyEngine.has_permission
  simp [List.any_eq_true]

theorem PyVal.eq_none_of_isNone {v : PyVal} (h : v.isNone = true) : v = PyVal.none := by
  cases v <;> simp [PyVal.isNone] at h ⊢

/-- C4: evaluating `max_amount` with `expected = True`, an in-context amount
of 500 and an actor whose `approval_limit` is 1000 yields a failure with
reason `"Amount 500 exceeds limit True"` — Python `isinstance(True, int)`
holds, so the static-threshold branch fires with threshold 1 and the
approval-limit comparison (500 against 1000, which would pass) is never
reached. -/
theorem C4_bool_expected_threshold :
    MaxAmountCondition.evaluate {} (PyVal.bool true) actorLimitFx Option.none ctxAmount500Fx =
      (false, some "Amount 500 exceeds limit True") ∧
    (actorLimitFx.getattr "approval_limit" PyVal.none).numVal = 1000 ∧
    (ctxAmount500Fx.get "amount").numVal = 500 := by
  exact ⟨rfl, rfl, rfl⟩

/-- C5 (counterexample): the `status` condition does not treat a missing
status attribute as a no-op pass: on a resource with no attributes and
`expected = "pending"` it fails, comparing `None` to the expected value. -/
theorem C5_counterexample :
    StatusCondition.evaluate {} (PyVal.str "pending") plainActorFx (some emptyResourceFx) {} =
      (false, some "Resource status must be pending, got None") := by
  rfl

/-- C5 (amended): `max_amount`, `not_creator` and `same_tenant` return a
no-op pass when the attribute they reference is missing or `None`; the
`status` condition instead compares the missing status (`None`) against
`expected`, passing only when `expected` is `None` or a collection
containing `None` (it still never raises). -/
theorem C5_missing_attribute :
    (∀ (c : MaxAmountCondition) (expected : PyVal) (actor : PyObj)
       (resource : Option PyObj) (ctx : AuthContext),
      (ctx.get c.context_field).isNone = true →
      (match resource with
       | some r => (r.getattr c.context_field PyVal.none).isNone = true
       | Option.none => True) →
      c.evaluate expected actor resource ctx = (true, Option.none)) ∧
    (∀ (c : NotCreatorCondition) (expected : PyVal) (actor : PyObj) (r : PyObj)
       (ctx : AuthContext),
      (r.getattr c.creator_field PyVal.none).isNone = true →
      c.evaluate expected actor (some r) ctx = (true, Option.none)) ∧
    (∀ (c : SameTenantCondition) (expected : PyVal) (actor : PyObj) (r : PyObj)
       (ctx : AuthContext),
      ((actor.getattr c.tenant_field PyVal.none).isNone ||
        (r.getattr c.tenant_field PyVal.none).isNone) = true →
      c.evaluate expected actor (some r) ctx = (true, Option.none)) ∧
    (∀ (c : StatusCondition) (expected : PyVal) (actor : PyObj) (r : PyObj)
       (ctx : AuthContext),
      (r.getattr c.status_field PyVal.none).isNone = true →
      (c.evaluate expected actor (some r) ctx).1 =
        (match expected with
         | PyVal.list xs => xs.any (fun v => v.pyEq PyVal.none)
         | e => PyVal.none.pyEq e)) := by
  refine ⟨?_, ?_, ?_, ?_⟩
  · intro c expected actor resource ctx h1 h2
    unfold MaxAmountCondition.evaluate
    cases resource with
    | none => simp [h1]
    | some r => simp [h1, h2]
  · intro c expected actor r ctx h1
    unfold NotCreatorCondition.evaluate
    by_cases he : expected.truthy
    · simp [he, h1]
    · simp [he]
  · intro c expected actor r ctx h1
    unfold SameTenantCondition.evaluate
    by_cases he : expected.truthy
    · simp only [he, Bool.not_true, Bool.false_eq_true, if_neg, not_false_iff]
      simp [h1]
    · simp [he]
  · intro c expected actor r ctx h1
    unfold StatusCondition.evaluate
    have hnone : r.getattr c.status_field PyVal.none = PyVal.none :=
      PyVal.eq_none_of_isNone h1
    cases expected with
    | list xs =>
        simp only [hnone]
        by_cases ha : xs.any (fun v => v.pyEq PyVal.none)
        · simp [ha]
        · simp [ha]
    | none => simp [hnone, PyVal.pyEq]
    | bool b => simp [hnone, PyVal.pyEq]
    | int n => simp [hnone, PyVal.pyEq]
    | str s => simp [hnone, PyVal.pyEq]

/-- C5 witness: the amended statement at concrete attribute-free fixtures. -/
theorem C5_missing_attribute_witness :
    MaxAmountCondition.evaluate {} (PyVal.bool true) plainActorFx (some emptyResourceFx) {} =
      (true, Option.none) ∧
    NotCreatorCondition.evaluate {} (PyVal.bool true) plainActorFx (some emptyResourceFx) {} =
      (true, Option.none) ∧
    SameTenantCondition.evaluate {} (PyVal.bool true) plainActorFx (some emptyResourceFx) {} =
      (true, Option.none) ∧
    (StatusCondition.evaluate {} (PyVal.str "pending") plainActorFx
        (some emptyResourceFx) {}).1 = false :=
  ⟨C5_missing_attribute.1 {} _ _ _ {} (by rfl) (by rfl),
   C5_missing_attribute.2.1 {} _ _ _ {} (by rfl),
   C5_missing_attribute.2.2.1 {} _ _ _ {} (by rfl),
   C5_missing_attribute.2.2.2 {} _ _ _ {} (by rfl)⟩

/-- C2: the RBAC engine caches the scope-filtered permission set under the
actor id alone.  After resolving permissions for user 1 against a resource
in project 10 (time 100), a second resolution at time 150 against a resource
in project 20 hits the cache and still returns the project-10-scoped
`docs:read`; a resolution with a cold cache against the project-20 resource
correctly excludes it.  Scoped filtering thus happens before caching, not
after cache retrieval, and the containment property fails across calls. -/
theorem C2_cache_ignores_resource :
    (((RBACPolicyEngine.get_user_permissions_impl {} rbacDbFx 100 (PyVal.int 1)
          (some resProjectAFx)).2).get_user_permissions_impl rbacDbFx 150 (PyVal.int 1)
        (some resProjectBFx)).1.contains "docs:read" = true ∧
    (RBACPolicyEngine.get_user_permissions_impl {} rbacDbFx 150 (PyVal.int 1)
        (some resProjectBFx)).1.contains "docs:read" = false := by
  exact ⟨rfl, rfl⟩

theorem engineValidFilter_eq_spec (ur : UserRole) (uid : PyVal) (now : Int) :
    engineValidFilter ur uid now = (ur.user_id.pyEq uid && assignmentValidSpec ur now) := by
  unfold engineValidFilter assignmentValidSpec
  rw [Bool.and_assoc]

/-- C7 (counterexample): at the boundary `valid_until == now`,
`UserRole.is_valid` still reports the assignment as valid (the source tests
`valid_until < now`), while the spec definition `valid_from <= now` and
`valid_until > now` classifies it as expired. -/
theorem C7_counterexample :
    UserRole.is_valid urBoundaryFx 5 = true ∧ assignmentValidSpec urBoundaryFx 5 = false := by
  exact ⟨rfl, rfl⟩

/-- C7 (amended): the engine's assignment query and
`RBACService.get_user_roles` filter by exactly the spec definition
(`valid_from <= now` and `valid_until` null or `> now`), so pre-filtering
the assignment table by that definition does not change the roles the engine
collects; `UserRole.is_valid` alone deviates, accepting additionally the
boundary case `valid_until == now`. -/
theorem C7_validity_definitions :
    (∀ (ur : UserRole) (now : Int),
      ur.is_valid now =
        (assignmentValidSpec ur now ||
          (decide (ur.valid_from ≤ now) && decide (ur.valid_until = some now)))) ∧
    (∀ (ur : UserRole) (uid : PyVal) (now : Int),
      engineValidFilter ur uid now = (ur.user_id.pyEq uid && assignmentValidSpec ur now)) ∧
    (∀ (db : RBACDb) (uid : PyVal) (now : Int),
      RBACService.get_user_roles db uid now false =
        db.user_roles.filter (fun ur => ur.user_id.pyEq uid && assignmentValidSpec ur now)) ∧
    (∀ (db : RBACDb) (now : Int) (uid : PyVal) (resource : Option PyObj),
      validRoleIds
          { db with user_roles := db.user_roles.filter (fun ur => assignmentValidSpec ur now) }
          now uid resource =
        validRoleIds db now uid resource) := by
  refine ⟨?_, engineValidFilter_eq_spec, ?_, ?_⟩
  · intro ur now
    unfold UserRole.is_valid assignmentValidSpec
    rcases h : ur.valid_until with _ | vu <;>
      by_cases hf : ur.valid_from > now
    · have hf2 : decide (ur.valid_from ≤ now) = false := by
        simp only [decide_eq_false_iff_not]
        omega
      simp [hf, hf2]
    · have hf2 : decide (ur.valid_from ≤ now) = true := by
        simp only [decide_eq_true_eq]
        omega
      simp [hf, hf2]
    · have hf2 : decide (ur.valid_from ≤ now) = false := by
        simp only [decide_eq_false_iff_not]
        omega
      simp [hf, hf2]
    · have hf2 : decide (ur.valid_from ≤ now) = true := by
        simp only [decide_eq_true_eq]
        omega
      by_cases hlt : vu < now
      · have h1 : decide (vu > now) = false := by
          simp only [decide_eq_false_iff_not]
          omega
        have h2 : decide (vu = now) = false := by
          simp only [decide_eq_false_iff_not]
          omega
        simp [hf, hf2, hlt, h1, h2, Option.some.injEq]
      · by_cases heq : vu = now
        · have h1 : decide (vu > now) = false := by
            simp only [decide_eq_false_iff_not]
            omega
          simp [hf, hf2, hlt, h1, heq, Option.some.injEq]
        · have h1 : decide (vu > now) = true := by
            simp only [decide_eq_true_eq]
            omega
          simp [hf, hf2, hlt, h1, heq, Option.some.injEq]
  · intro db uid now
    unfold RBACService.get_user_roles assignmentValidSpec
    simp [Bool.false_or]
  · intro db now uid resource
    unfold validRoleIds
    have hff :
        (db.user_roles.filter (fun ur => assignmentValidSpec ur now)).filter
            (fun ur => engineValidFilter ur uid now) =
          db.user_roles.filter (fun ur => engineValidFilter ur uid now) := by
      rw [List.filter_filter]
      apply List.filter_congr
      intro ur _
      rw [engineValidFilter_eq_spec, Bool.and_assoc, Bool.and_self]
    simp only [hff]

/-- C8: `OwnershipScopeProvider.get_scope` yields `level="ownership"` with
`filters[owner_field] == actor.id` for every non-admin actor, and for every
admin actor yields `level="global"` or, under multi-tenancy with a truthy
actor tenant, `level="tenant"` with the actor's tenant filter — regardless
of resource type or action.  Stated for configurations whose owner and
tenant field names differ (identical names would overwrite each other in
the filters dict). -/
theorem C8_ownership_scope (p : OwnershipScopeProvider) (actor : PyObj)
    (resource_type action : Option String)
    (hfields : p.owner_field ≠ p.tenant_field) :
    ((actor.getattr p.admin_field (PyVal.bool false)).truthy = false →
      (p.get_scope actor resource_type action).level = "ownership" ∧
      dictGet (p.get_scope actor resource_type action).filters p.owner_field =
        some (actor.getattr "id" PyVal.none)) ∧
    ((actor.getattr p.admin_field (PyVal.bool false)).truthy = true →
      (p.get_scope actor resource_type action).level = "global" ∨
      (p.multi_tenant = true ∧ (p.get_scope actor resource_type action).level = "tenant" ∧
        dictGet (p.get_scope actor resource_type action).filters p.tenant_field =
          some (actor.getattr p.tenant_field PyVal.none))) := by
  constructor
  · intro h
    unfold OwnershipScopeProvider.get_scope
    simp only [h, Bool.false_eq_true, if_false]
    refine ⟨by simp, ?_⟩
    by_cases hm : p.multi_tenant
    · by_cases ht : (actor.getattr p.tenant_field PyVal.none).truthy
      · simp only [hm, ht, if_pos]
        rw [dictGet_dictSet_ne _ _ _ _ hfields, dictGet_dictSet_self]
      · simp only [hm, ht, Bool.false_eq_true, if_neg, not_false_iff, if_pos]
        rw [dictGet_dictSet_self]
    · simp only [hm, Bool.false_eq_true, if_neg, not_false_iff]
      rw [dictGet_dictSet_self]
  · intro h
    unfold OwnershipScopeProvider.get_scope
    simp only [h, if_pos]
    by_cases hm : p.multi_tenant
    · by_cases ht : (actor.getattr p.tenant_field PyVal.none).truthy
      · right
        refine ⟨hm, ?_⟩
        simp [hm, ht, DataScope.tenant, dictGet]
      · left
        simp [hm, ht, DataScope.global_access]
    · left
      simp [hm, DataScope.global_access]

/-- C8 witness: the two branches at a concrete non-admin and a concrete
admin actor under the default configuration. -/
theorem C8_ownership_scope_witness :
    ((({} : OwnershipScopeProvider).get_scope plainActorFx Option.none Option.none).level =
        "ownership" ∧
      dictGet (({} : OwnershipScopeProvider).get_scope plainActorFx Option.none
          Option.none).filters "created_by_id" =
        some (plainActorFx.getattr "id" PyVal.none)) ∧
    ((({} : OwnershipScopeProvider).get_scope adminActorFx Option.none Option.none).level =
        "global" ∨
      (({} : OwnershipScopeProvider).multi_tenant = true ∧
        (({} : OwnershipScopeProvider).get_scope adminActorFx Option.none
            Option.none).level = "tenant" ∧
        dictGet (({} : OwnershipScopeProvider).get_scope adminActorFx Option.none
            Option.none).filters "organization_id" =
          some (adminActorFx.getattr "organization_id" PyVal.none))) :=
  ⟨(C8_ownership_scope {} plainActorFx Option.none Option.none (by decide)).1 (by rfl),
   (C8_ownership_scope {} adminActorFx Option.none Option.none (by decide)).2 (by rfl)⟩

/-- C9: registering a strategy class under a name and requesting that name
returns an instance of the registered class; requesting any unregistered
name yields a configuration error whose list of available names includes
the registered one — identically for policy engines, scope providers and
condition evaluators. -/
theorem C9_registry_round_trip {α : Type} (m : List (String × α)) (x y : String) (C : α)
    (hy : dictGet (AuthRegistry.register_strategy m x C) y = Option.none) :
    AuthRegistry.get_policy_engine (AuthRegistry.register_strategy m x C) x =
      Except.ok { cls := C } ∧
    (∃ e, AuthRegistry.get_policy_engine (AuthRegistry.register_strategy m x C) y =
        Except.error e ∧ e.available.contains x = true) ∧
    AuthRegistry.get_scope_provider (AuthRegistry.register_strategy m x C) x =
      Except.ok { cls := C } ∧
    (∃ e, AuthRegistry.get_scope_provider (AuthRegistry.register_strategy m x C) y =
        Except.error e ∧ e.available.contains x = true) ∧
    AuthRegistry.get_condition_evaluator (AuthRegistry.register_strategy m x C) x =
      Except.ok { cls := C } ∧
    (∃ e, AuthRegistry.get_condition_evaluator (AuthRegistry.register_strategy m x C) y =
        Except.error e ∧ e.available.contains x = true) := by
  have hok : ∀ kind : String,
      AuthRegistry.get_strategy kind (AuthRegistry.register_strategy m x C) x =
        Except.ok { cls := C } := by
    intro kind
    unfold AuthRegistry.get_strategy AuthRegistry.register_strategy
    rw [dictGet_dictSet_self]
  have herr : ∀ kind : String,
      ∃ e, AuthRegistry.get_strategy kind (AuthRegistry.register_strategy m x C) y =
          Except.error e ∧ e.available.contains x = true := by
    intro kind
    unfold AuthRegistry.get_strategy
    rw [hy]
    refine ⟨_, rfl, ?_⟩
    unfold AuthRegistry.register_strategy
    exact dictKeys_dictSet_contains m x C
  exact ⟨hok _, herr _, hok _, herr _, hok _, herr _⟩

/-- C9 witness: round-trip and error listing on a concrete one-entry registry. -/
theorem C9_registry_round_trip_witness :
    AuthRegistry.get_policy_engine (AuthRegistry.register_strategy ([] : List (String × Unit))
        "x" ()) "x" = Except.ok { cls := () } ∧
    (∃ e, AuthRegistry.get_policy_engine (AuthRegistry.register_strategy
        ([] : List (String × Unit)) "x" ()) "y" = Except.error e ∧
        e.available.contains "x" = true) ∧
    AuthRegistry.get_scope_provider (AuthRegistry.register_strategy ([] : List (String × Unit))
        "x" ()) "x" = Except.ok { cls := () } ∧
    (∃ e, AuthRegistry.get_scope_provider (AuthRegistry.register_strategy
        ([] : List (String × Unit)) "x" ()) "y" = Except.error e ∧
        e.available.contains "x" = true) ∧
    AuthRegistry.get_condition_evaluator (AuthRegistry.register_strategy
        ([] : List (String × Unit)) "x" ()) "x" = Except.ok { cls := () } ∧
    (∃ e, AuthRegistry.get_condition_evaluator (AuthRegistry.register_strategy
        ([] : List (String × Unit)) "x" ()) "y" = Except.error e ∧
        e.available.contains "x" = true) :=
  C9_registry_round_trip [] "x" "y" () (by rfl)

/-- C10: for every non-global scope none of whose filter fields exists on
the target model, both providers' `apply_to_query` return the query
unchanged — no predicate is added and no error is raised, including the
tenant level applied to a model without the tenant field. -/
theorem C10_apply_to_query_no_fields (np : NoScopeProvider) (op : OwnershipScopeProvider)
    (q : Query) (scope : DataScope) (model : List String)
    (hlevel : scope.level ≠ "global")
    (h : ∀ f ∈ scope.filters, model.contains f.1 = false) :
    np.apply_to_query q scope model = q ∧ op.apply_to_query q scope model = q := by
  have hgen := applyFiltersGeneric_id q scope.filters model h
  have hlevel' : (scope.level == "global") = false := by
    simpa using hlevel
  constructor
  · unfold NoScopeProvider.apply_to_query
    simp only [hlevel', Bool.false_eq_true, if_false]
    by_cases hc : (scope.level == "tenant" &&
        ((dictGet scope.filters np.tenant_field).getD PyVal.none).truthy &&
        model.contains np.tenant_field) = true
    · exfalso
      have hc' := hc
      simp only [Bool.and_eq_true] at hc'
      obtain ⟨⟨_, htr⟩, hmem⟩ := hc'
      cases hd : dictGet scope.filters np.tenant_field with
      | none =>
          rw [hd] at htr
          simp [PyVal.truthy] at htr
      | some v =>
          have hv := h (np.tenant_field, v) (dictGet_mem _ _ _ hd)
          simp only at hv
          rw [hv] at hmem
          exact Bool.false_ne_true hmem
    · rw [if_neg hc]
      exact hgen
  · unfold OwnershipScopeProvider.apply_to_query
    simp [hlevel', hgen]

/-- C10 witness: a tenant scope applied to a model exposing none of the
filter fields leaves the query untouched, for both providers. -/
theorem C10_apply_to_query_no_fields_witness :
    ({} : NoScopeProvider).apply_to_query {} (DataScope.tenant (PyVal.int 5) "organization_id")
        ["name"] = {} ∧
    ({} : OwnershipScopeProvider).apply_to_query {}
        (DataScope.tenant (PyVal.int 5) "organization_id") ["name"] = {} :=
  C10_apply_to_query_no_fields {} {} {} (DataScope.tenant (PyVal.int 5) "organization_id")
    ["name"] (by decide) (by decide)
